import Mathlib

/-!
# Shallow embedding of the gswarm_multibot session supervisor

Embeds `src/main.py` of the `gswarm_multibot` repository: the single-slot
session supervisor, its FIFO queue, the inactivity-timeout checker, the
line classifier of the child process's output and the reactions to it.

Conventions of the embedding:
* chat ids and process handles are `Nat`; a process handle stands for the
  identity of one spawned `gswarm` child (Python object identity, `is`);
* time is `Nat` seconds since an arbitrary epoch; `SESSION_TIMEOUT` is
  600 seconds (10 minutes), matching `timedelta(minutes=10)`;
* the mutable globals `active_session = {"chat_id", "proc", "last_active"}`
  and `session_queue` become the record `SupState`;
* the outside world (current time, spawn success, whether a given process
  has exited, whether its stdin pipe is usable, whether it exits within
  the 5 s grace period after `terminate()`, whether a stdin write
  succeeds) is an `Env` record passed to each operation;
* each operation returns the new state together with a list of `Effect`s
  (outbound notifications, stdin writes, process-control calls) in the
  order the Python code performs them. Log `print`s are dropped; the
  message texts keep the source wording minus emoji and apostrophes.
-/

namespace GswarmMultibot

/-! ## Line classification (from `monitor_gswarm_output`, main.py 122-160)

`verify_re = re.compile(r"verify\s+code[:\s]+([A-Za-z0-9\-]+)", re.IGNORECASE)`
`success_indicators = ["account successfully linked", "accounts linked successfully"]`
`no_peerid_pattern = re.compile(r"no peer ids found for address", re.IGNORECASE)`

The verify regex is embedded as a direct scanner: its character classes
are pairwise disjoint with the literals that follow them, so greedy
matching without backtracking is equivalent to Python `re.search`,
including leftmost-match and the group-1 capture. -/

/-- Python `\s` on ASCII input: space, tab, newline, carriage return,
vertical tab, form feed. -/
def isWsChar (c : Char) : Bool :=
  c = ' ' || c = '\t' || c = '\n' || c = '\r' || c = '\x0b' || c = '\x0c'

/-- The character class `[A-Za-z0-9\-]` of the capture group. -/
def isCodeTokChar (c : Char) : Bool :=
  c.isAlpha || c.isDigit || c = '-'

/-- The class `[:\s]` between `code` and the captured token. -/
def isColonWs (c : Char) : Bool :=
  c = ':' || isWsChar c

/-- Match a literal case-insensitively at the head of the input, returning
the rest on success (the literals of the regex under `re.IGNORECASE`). -/
def dropLitCI : List Char → List Char → Option (List Char)
  | [], cs => some cs
  | _ :: _, [] => none
  | p :: ps, c :: cs => if c.toLower = p.toLower then dropLitCI ps cs else none

/-- Greedy run of characters satisfying `f`: the matched run and the rest. -/
def takeRun (f : Char → Bool) : List Char → (List Char × List Char)
  | [] => ([], [])
  | c :: cs =>
    if f c then
      let r := takeRun f cs
      (c :: r.1, r.2)
    else ([], c :: cs)

/-- Attempt the verify regex anchored at the head of the input; returns the
group-1 capture on success. -/
def verifyAt (cs : List Char) : Option (List Char) :=
  match dropLitCI "verify".data cs with
  | none => none
  | some r1 =>
    match takeRun isWsChar r1 with
    | ([], _) => none
    | (_ :: _, r2) =>
      match dropLitCI "code".data r2 with
      | none => none
      | some r3 =>
        match takeRun isColonWs r3 with
        | ([], _) => none
        | (_ :: _, r4) =>
          match takeRun isCodeTokChar r4 with
          | ([], _) => none
          | (k :: ks, _) => some (k :: ks)

/-- The search `verify_re.search(line)` with the group-1 capture: try each start
position left to right. -/
def verifySearch : List Char → Option (List Char)
  | [] => none
  | c :: cs =>
    match verifyAt (c :: cs) with
    | some k => some k
    | none => verifySearch cs

/-- Case-insensitive prefix test (pattern against head of input). -/
def matchCI : List Char → List Char → Bool
  | [], _ => true
  | _ :: _, [] => false
  | p :: ps, c :: cs => c.toLower = p.toLower && matchCI ps cs

/-- Case-insensitive substring search: `re.search` of a literal pattern
under `re.IGNORECASE`, and equally `pat in line.lower()` for a lowercase
`pat`. -/
def searchCI (pat : List Char) : List Char → Bool
  | [] => matchCI pat []
  | c :: cs => matchCI pat (c :: cs) || searchCI pat cs

/-- Character-wise lowercase (`str.lower()` on ASCII input). -/
def lowerList (cs : List Char) : List Char := cs.map Char.toLower

/-- Test that `pat` is a prefix of the input (`str.startswith`). -/
def startsWithList : List Char → List Char → Bool
  | [], _ => true
  | _ :: _, [] => false
  | p :: ps, c :: cs => p = c && startsWithList ps cs

/-- Python `str.strip()` on ASCII input: drop leading and trailing whitespace. -/
def pyStrip (s : String) : String :=
  ⟨((s.data.dropWhile isWsChar).reverse.dropWhile isWsChar).reverse⟩

/-- The test `no_peerid_pattern.search(line)` (main.py 126, 152). -/
def noPeerHit (line : String) : Bool :=
  searchCI "no peer ids found for address".data line.data

/-- The test `any(ind in line.lower() for ind in success_indicators)` (main.py 125, 157). -/
def successHit (line : String) : Bool :=
  searchCI "account successfully linked".data line.data ||
  searchCI "accounts linked successfully".data line.data

/-- The semantic signal derived from one output line (spec §3). -/
inductive Signal where
  | VerifyCode : String → Signal
  | NoPeerFound : Signal
  | LinkSucceeded : Signal
  | Passthrough : String → Signal
deriving DecidableEq, Repr

/-- The line classifier: one signal per line, patterns checked in the
order the monitor loop checks them (verify first, then no-peer, then the
success indicators; anything else passes through). -/
def classify (line : String) : Signal :=
  match verifySearch line.data with
  | some code => Signal.VerifyCode ⟨code⟩
  | none =>
    if noPeerHit line then Signal.NoPeerFound
    else if successHit line then Signal.LinkSucceeded
    else Signal.Passthrough line

/-! ## Supervisor state and environment -/

/-- The globals `active_session = {"chat_id": None, "proc": None, "last_active": None}`
and `session_queue = []` (main.py 32-33): the three fields of the active
slot are independent optionals exactly as in the Python dict; the queue is
a list of `(chat_id, evm_address)` pairs. -/
structure SupState where
  chatId : Option Nat
  procId : Option Nat
  lastActive : Option Nat
  queue : List (Nat × String)
deriving DecidableEq, Repr

/-- The state at interpreter start. -/
def initState : SupState := ⟨none, none, none, []⟩

/-- The constant `SESSION_TIMEOUT = timedelta(minutes=10)`, in seconds. -/
def SESSION_TIMEOUT : Nat := 600

/-- Externally observable actions, in the order the code performs them. -/
inductive Effect where
  | notify : Nat → String → Effect
  | spawn : Nat → Effect
  | stdinWrite : Nat → String → Effect
  | termReq : Nat → Effect
  | killProc : Nat → Effect
  | waitExit : Nat → Effect
  | webhookOff : Effect
  | webhookOn : Effect
deriving DecidableEq, Repr

/-- The outside world as seen by one supervisor operation: the clock, the
outcome `asyncio.create_subprocess_exec` would have (`some pid` on
success, `none` when it raises), and per-process-handle facts: whether
`proc.returncode is not None`, whether `proc.stdin` is usable, whether the
process exits within the 5 s grace period after `terminate()`, and whether
a write to its stdin succeeds. -/
structure Env where
  now : Nat
  spawnResult : Option Nat
  procExited : Nat → Bool
  stdinUsable : Nat → Bool
  exitsInGrace : Nat → Bool
  writeOk : Nat → Bool

/-! ## Outbound message texts (source wording, minus emoji/apostrophes) -/

def queuedMsg (position : Nat) : String :=
  "Another session is active. You have been added to the queue at position #" ++ toString position

def startedMsg : String := "GSwarm monitoring started! Updates will appear here."

def spawnFailMsg : String := "Failed to start GSwarm."

def stopNoticeMsg (reason : String) : String :=
  reason ++ " If you still want to monitor, please restart with /start."

def yourTurnMsg : String := "Your turn! Starting your GSwarm monitoring session now..."

def timeoutReason : String := "Session timed out after 10 minutes of inactivity."

def userStopReason : String := "Session stopped by user."

def noPeerReason : String := "No peer IDs found."

def linkedReason : String := "Account linked successfully."

def exitedReason : String := "GSwarm process exited."

def procExitedMsg : String := "GSwarm process has exited. Please restart with /start."

def noSessionMsg : String := "No active session or GSwarm process not available."

def verifySentMsg : String :=
  "Verification command sent to GSwarm. Webhook temporarily disabled to allow verification."

def pipeClosedMsg : String := "GSwarm process stdin is closed. The process may have exited."

def usageMsg : String := "Send a valid EVM address (starting with 0x) to start."

def autoSentMsg (code : String) : String := "Auto-sent verification code: " ++ code

def unavailableMsg (code : String) : String :=
  "Detected verification code: " ++ code ++ " but GSwarm process unavailable. Please send manually."

def sendFailedMsg (code : String) : String :=
  "Detected verification code: " ++ code ++ " but failed to send. Please send /verify " ++ code ++ " manually."

def noPeerMsg : String := "No peer IDs found. Please use a valid EVM address."

def linkedMsg : String := "Account linked successfully! Ending session..."

def removedFromQueueMsg : String := "Removed from queue."

def noQueuedMsg : String := "No active or queued session."

/-- The queue-removal loop of `cmd_stop` (main.py 180-185): pop the first
entry whose chat id matches; `none` when no entry matches. -/
def removeFirstById (cid : Nat) : List (Nat × String) → Option (List (Nat × String))
  | [] => none
  | (c, e) :: rest =>
    if c = cid then some rest
    else
      match removeFirstById cid rest with
      | some rest2 => some ((c, e) :: rest2)
      | none => none

/-! ## Operations (main.py) -/

/-- Python `start_session(chat_id, evm_address)` (main.py 82-119). If a chat id
is active, append the caller to the queue and tell it its 1-based
position; otherwise write the config artifact, spawn the child and fill
the active slot (`last_active = utcnow()`), or report the spawn failure
leaving all state untouched. -/
def startSession (env : Env) (chatId : Nat) (evm : String) (s : SupState) :
    SupState × List Effect :=
  match s.chatId with
  | some _ =>
    let position := s.queue.length + 1
    ({ s with queue := s.queue ++ [(chatId, evm)] },
     [Effect.notify chatId (queuedMsg position)])
  | none =>
    match env.spawnResult with
    | some pid =>
      ({ s with chatId := some chatId, procId := some pid, lastActive := some env.now },
       [Effect.spawn pid, Effect.notify chatId startedMsg])
    | none => (s, [Effect.notify chatId spawnFailMsg])

/-- Python `stop_active_session(reason)` (main.py 44-69): terminate the active
process if any (graceful `terminate()`, then `kill()` if `wait()` does not
return within the 5 s grace period, then `wait()`), notify the displaced
owner, clear the whole active slot, and only then promote the queue head
(if any) by popping it and running `start_session` on it.

`terminateSeq` is the process-control call sequence of main.py 50-55:
graceful `terminate()`, then `kill()` followed by `wait()` when the
process does not exit within the 5 s grace period, else just `wait()`. -/
def terminateSeq (env : Env) (pid : Nat) : List Effect :=
  Effect.termReq pid ::
    (if env.exitsInGrace pid then [Effect.waitExit pid]
     else [Effect.killProc pid, Effect.waitExit pid])

def stopActiveSession (env : Env) (reason : String) (s : SupState) :
    SupState × List Effect :=
  let termSeq : List Effect :=
    match s.procId with
    | some pid => terminateSeq env pid
    | none => []
  let byeSeq : List Effect :=
    match s.chatId with
    | some cid => [Effect.notify cid (stopNoticeMsg reason)]
    | none => []
  match s.queue with
  | [] => (⟨none, none, none, []⟩, termSeq ++ byeSeq)
  | (nextChat, nextEvm) :: rest =>
    let next := startSession env nextChat nextEvm ⟨none, none, none, rest⟩
    (next.1, termSeq ++ byeSeq ++ [Effect.notify nextChat yourTurnMsg] ++ next.2)

/-- One wake-up of `session_timeout_checker` (main.py 72-78): stop the
session only when a chat id and a last-active stamp are both present and
`utcnow() - last > SESSION_TIMEOUT` (strictly). -/
def timeoutCheck (env : Env) (s : SupState) : SupState × List Effect :=
  match s.chatId, s.lastActive with
  | some _, some last =>
    if SESSION_TIMEOUT < env.now - last then stopActiveSession env timeoutReason s
    else (s, [])
  | _, _ => (s, [])

/-- Python `cmd_stop` (main.py 174-186): the owner stops the active session;
anyone else is removed from the queue (first matching entry) if present. -/
def cmdStop (env : Env) (chatId : Nat) (s : SupState) : SupState × List Effect :=
  if s.chatId = some chatId then stopActiveSession env userStopReason s
  else
    match removeFirstById chatId s.queue with
    | some rest => ({ s with queue := rest }, [Effect.notify chatId removedFromQueueMsg])
    | none => (s, [Effect.notify chatId noQueuedMsg])

/-- Python `handle_message` (main.py 189-243), for the sender `chatId` and the
raw message text. First, if the sender owns the active session, its
`last_active` is refreshed. A text whose lowercase form starts with
`/verify` goes to the forwarding branch: when a process handle is in the
active slot and its stdin is usable, an exited process is reported;
otherwise the webhook is dropped, `text + "\n"` is written to the child
stdin and acknowledged, and the webhook restored (on a write error the
pipe-closed report is sent instead); with no process or no stdin, the
no-session reply is sent. The branch never consults who owns the session.
Otherwise a 42-character `0x`-prefixed text starts a session, and
anything else gets the usage reply. -/
def handleMessage (env : Env) (chatId : Nat) (rawText : String) (s : SupState) :
    SupState × List Effect :=
  let text := pyStrip rawText
  let s0 :=
    if s.chatId = some chatId then { s with lastActive := some env.now } else s
  if startsWithList "/verify".data (lowerList text.data) then
    match s0.procId with
    | some pid =>
      if env.stdinUsable pid then
        if env.procExited pid then (s0, [Effect.notify chatId procExitedMsg])
        else if env.writeOk pid then
          (s0, [Effect.webhookOff, Effect.stdinWrite pid (text ++ "\n"),
                Effect.notify chatId verifySentMsg, Effect.webhookOn])
        else (s0, [Effect.webhookOff, Effect.notify chatId pipeClosedMsg])
      else (s0, [Effect.notify chatId noSessionMsg])
    | none => (s0, [Effect.notify chatId noSessionMsg])
  else if startsWithList "0x".data text.data && text.data.length = 42 then
    startSession env chatId text s0
  else (s0, [Effect.notify chatId usageMsg])

/-- The body of the monitor loop for one output line (main.py 136-160),
run for the process handle `pid` and the owner `chatId` the monitor task
was started with. The verify check and the two terminal checks are
sequential independent tests: a verify match writes `/verify <code>\n` to
the child stdin (or reports unavailability/failure) first, and a no-peer
or success match then notifies and runs the stop-and-advance path and
ends the loop (`.2.2 = true` means the monitor returned on this line). -/
def processLine (env : Env) (chatId pid : Nat) (line : String) (s : SupState) :
    SupState × List Effect × Bool :=
  let verifyEffs : List Effect :=
    match verifySearch line.data with
    | some code =>
      let codeStr : String := ⟨code⟩
      if env.stdinUsable pid && !env.procExited pid then
        if env.writeOk pid then
          [Effect.stdinWrite pid ("/verify " ++ codeStr ++ "\n"),
           Effect.notify chatId (autoSentMsg codeStr)]
        else [Effect.notify chatId (sendFailedMsg codeStr)]
      else [Effect.notify chatId (unavailableMsg codeStr)]
    | none => []
  if noPeerHit line then
    let stopped := stopActiveSession env noPeerReason s
    (stopped.1, verifyEffs ++ [Effect.notify chatId noPeerMsg] ++ stopped.2, true)
  else if successHit line then
    let stopped := stopActiveSession env linkedReason s
    (stopped.1, verifyEffs ++ [Effect.notify chatId linkedMsg] ++ stopped.2, true)
  else (s, verifyEffs, false)

/-- The `finally` clause of `monitor_gswarm_output` (main.py 163-165): when
the read loop ends, run the stop-and-advance path only if the active slot
still holds the very process handle this monitor was started with. -/
def monitorFinalize (env : Env) (pid : Nat) (s : SupState) : SupState × List Effect :=
  if s.procId = some pid then stopActiveSession env exitedReason s
  else (s, [])

/-! ## Sample environments and states used by witnesses and counterexamples -/

/-- A benign environment: spawning succeeds with handle 77, no process has
exited, stdin pipes are usable, processes exit within the grace period,
writes succeed. -/
def envS : Env := ⟨1000, some 77, fun _ => false, fun _ => true, fun _ => true, fun _ => true⟩

/-- Same as `envS` but `create_subprocess_exec` raises (spawn fails). -/
def envF : Env := ⟨1000, none, fun _ => false, fun _ => true, fun _ => true, fun _ => true⟩

/-- Chat 1 owns the active session with process handle 10; empty queue. -/
def sOne : SupState := ⟨some 1, some 10, some 0, []⟩

/-- Chat 1 active with process 10; chat 2 waiting in the queue. -/
def sQ : SupState := ⟨some 1, some 10, some 0, [(2, "0xb")]⟩

/-! ## Claims -/

/-- C6: the line classifier maps "Your verify code: ABC-123" to
`VerifyCode "ABC-123"`, "No peer IDs found for address 0xdead..." to
`NoPeerFound`, "Account successfully linked" to `LinkSucceeded`, and
"starting up...", which matches no pattern, to `Passthrough`. -/
theorem classify_literal_inputs :
    classify "Your verify code: ABC-123" = Signal.VerifyCode "ABC-123" ∧
    classify "No peer IDs found for address 0xdead..." = Signal.NoPeerFound ∧
    classify "Account successfully linked" = Signal.LinkSucceeded ∧
    classify "starting up..." = Signal.Passthrough "starting up..." := by
  refine ⟨?_, ?_, ?_, ?_⟩ <;> rfl

/-- C9: a `requestStart` that reaches the spawn step (supervisor idle) and
fails leaves the state exactly as it was — still idle, queue untouched —
and only notifies the requester of the failure. -/
theorem spawn_failed_state_unchanged (env : Env) (c : Nat) (e : String) (s : SupState)
    (hIdle : s.chatId = none) (hFail : env.spawnResult = none) :
    startSession env c e s = (s, [Effect.notify c spawnFailMsg]) := by
  simp [startSession, hIdle, hFail]

/-- Witness for C9 at a concrete idle state and failing environment. -/
theorem spawn_failed_state_unchanged_witness :
    startSession envF 5 "0xa" ⟨none, none, none, [(2, "0xb")]⟩ =
      (⟨none, none, none, [(2, "0xb")]⟩, [Effect.notify 5 spawnFailMsg]) :=
  spawn_failed_state_unchanged envF 5 "0xa" ⟨none, none, none, [(2, "0xb")]⟩ rfl rfl

/-- C10: the monitor's `finally` clause runs the stop-and-advance path
only when the active slot still holds the exact process handle the monitor
was started with; for a stale monitor (slot cleared or replaced) it leaves
the state untouched and performs no effect. -/
theorem monitor_finalize_guard (env : Env) (pid : Nat) (s : SupState) :
    (s.procId = some pid → monitorFinalize env pid s = stopActiveSession env exitedReason s) ∧
    (s.procId ≠ some pid → monitorFinalize env pid s = (s, [])) := by
  constructor
  · intro h
    simp [monitorFinalize, h]
  · intro h
    simp [monitorFinalize, h]

/-- Witness for C10: a stale monitor (handle 11 while the slot holds 10)
changes nothing. -/
theorem monitor_finalize_guard_witness :
    monitorFinalize envS 11 sOne = (sOne, []) :=
  (monitor_finalize_guard envS 11 sOne).2 (by decide)

/-- C2: while a session is active (a chat id occupies the slot),
`start_session` never spawns a child and never touches the single active
slot — the slot, being one optional record, holds at most one
(chat id, process) pair in every state, and only the queue grows. -/
theorem single_slot_no_second_spawn (env : Env) (c : Nat) (e : String) (s : SupState)
    (hAct : s.chatId.isSome) :
    (startSession env c e s).1.chatId = s.chatId ∧
    (startSession env c e s).1.procId = s.procId ∧
    ∀ p, Effect.spawn p ∉ (startSession env c e s).2 := by
  obtain ⟨cid, pf, la, q⟩ := s
  match cid, hAct with
  | some cid0, _ =>
    refine ⟨rfl, rfl, ?_⟩
    intro p hp
    simp [startSession] at hp

/-- Witness for C2: a start request while chat 1 is active spawns nothing. -/
theorem single_slot_no_second_spawn_witness :
    Effect.spawn 77 ∉ (startSession envS 2 "0xb" sOne).2 :=
  (single_slot_no_second_spawn envS 2 "0xb" sOne (by decide)).2.2 77

/-- C1 counterexample: with chat 1 already owning the active session, a
further `start_session` from chat 1 is not a no-op: it appends a second
queue entry for chat 1, so chat 1 now appears both as the active session
and in the queue. -/
theorem duplicate_request_counterexample :
    sOne.chatId = some 1 ∧
    (startSession envS 1 "0xa" sOne).1.queue = [(1, "0xa")] ∧
    (startSession envS 1 "0xa" sOne).1.chatId = some 1 := by
  refine ⟨rfl, ?_, ?_⟩ <;> rfl

/-- C1 amended: `start_session` performs no duplicate check at all — while
any session is active, every further request (including one from the
already-active or an already-queued requester) unconditionally appends a
new `QueueEntry` and reports the queue position, leaving the active slot
unchanged; a requesterId can therefore appear several times across the
active session and the queue. -/
theorem duplicate_request_enqueues (env : Env) (c : Nat) (e : String) (s : SupState)
    (hAct : s.chatId.isSome) :
    startSession env c e s =
      ({ s with queue := s.queue ++ [(c, e)] },
       [Effect.notify c (queuedMsg (s.queue.length + 1))]) := by
  obtain ⟨cid, pf, la, q⟩ := s
  match cid, hAct with
  | some cid0, _ => rfl

/-- Witness for the C1 amendment: the active chat 1 requesting again is
enqueued at position 1. -/
theorem duplicate_request_enqueues_witness :
    startSession envS 1 "0xa" sOne =
      ({ sOne with queue := [(1, "0xa")] }, [Effect.notify 1 (queuedMsg 1)]) :=
  duplicate_request_enqueues envS 1 "0xa" sOne (by decide)

/-- C3 counterexample: chat 2 does not own the active session (chat 1
does), yet its `/verify ABC` is forwarded verbatim plus newline to the
child's stdin — the handler never checks ownership. -/
theorem verify_forward_counterexample :
    sOne.chatId = some 1 ∧
    handleMessage envS 2 "/verify ABC" sOne =
      (sOne, [Effect.webhookOff, Effect.stdinWrite 10 "/verify ABC\n",
              Effect.notify 2 verifySentMsg, Effect.webhookOn]) := by
  exact ⟨rfl, rfl⟩

/-- C3 amended: an inbound `/verify` text is forwarded verbatim plus a
newline to the child's stdin whenever a process handle occupies the active
slot with a usable stdin and the process has not exited — regardless of
whether the sender owns the active session; only when no process (or no
stdin) is available does the handler reply that no session is available.
The queue and the active (chat id, process) pair are unchanged in both
cases; the owner's `last_active` is refreshed exactly when the sender is
the owner. -/
theorem verify_forward_any_sender (env : Env) (sender : Nat) (text : String) (s : SupState)
    (hV : startsWithList "/verify".data (lowerList (pyStrip text).data) = true) :
    (∀ pid, s.procId = some pid → env.stdinUsable pid = true →
        env.procExited pid = false → env.writeOk pid = true →
      handleMessage env sender text s =
        ((if s.chatId = some sender then { s with lastActive := some env.now } else s),
         [Effect.webhookOff, Effect.stdinWrite pid (pyStrip text ++ "\n"),
          Effect.notify sender verifySentMsg, Effect.webhookOn])) ∧
    (s.procId = none →
      handleMessage env sender text s =
        ((if s.chatId = some sender then { s with lastActive := some env.now } else s),
         [Effect.notify sender noSessionMsg])) := by
  constructor
  · intro pid hp hu he hw
    by_cases hown : s.chatId = some sender
    · simp [handleMessage, hV, hown, hp, hu, he, hw]
    · simp [handleMessage, hV, hown, hp, hu, he, hw]
  · intro hp
    by_cases hown : s.chatId = some sender
    · simp [handleMessage, hV, hown, hp]
    · simp [handleMessage, hV, hown, hp]

/-- Witness for the C3 amendment: the non-owner chat 2's command reaches
process 10's stdin. -/
theorem verify_forward_any_sender_witness :
    handleMessage envS 2 "/verify XYZ" sOne =
      (sOne, [Effect.webhookOff, Effect.stdinWrite 10 "/verify XYZ\n",
              Effect.notify 2 verifySentMsg, Effect.webhookOn]) :=
  (verify_forward_any_sender envS 2 "/verify XYZ" sOne (by decide)).1 10 rfl rfl rfl rfl

/-- C5 counterexample: on the line
"verify code: ABC no peer ids found for address 0x1", which matches both
the verify-code pattern and the NoPeerFound pattern, the monitor attempts
the `/verify` write to the child's stdin — the terminal pattern does not
take precedence over (suppress) the VerifyCode reaction. -/
theorem tiebreak_counterexample :
    noPeerHit "verify code: ABC no peer ids found for address 0x1" = true ∧
    verifySearch ("verify code: ABC no peer ids found for address 0x1").data =
      some "ABC".data ∧
    Effect.stdinWrite 10 "/verify ABC\n" ∈
      (processLine envS 1 10 "verify code: ABC no peer ids found for address 0x1" sOne).2.1 := by
  refine ⟨rfl, rfl, ?_⟩
  decide

/-- C5 amended: the checks are independent, so on a line matching both the
verify-code pattern and a terminal pattern — NoPeerFound or LinkSucceeded,
with NoPeerFound tested first — the verify reaction fires first: the
`/verify <code>` write to stdin is attempted (when the pipe is usable, the
process alive and the write succeeds), and then the terminal reaction also
runs: the session is stopped via the stop-and-advance path with that
terminal's reason and the monitor loop ends on that line. Terminal
patterns end monitoring but do not suppress the VerifyCode write. -/
theorem tiebreak_both_reactions (env : Env) (chat pid : Nat) (s : SupState)
    (line : String) (code : List Char)
    (hv : verifySearch line.data = some code)
    (hu : env.stdinUsable pid = true) (he : env.procExited pid = false)
    (hw : env.writeOk pid = true) :
    (noPeerHit line = true →
      processLine env chat pid line s =
        ((stopActiveSession env noPeerReason s).1,
         [Effect.stdinWrite pid ("/verify " ++ (⟨code⟩ : String) ++ "\n"),
          Effect.notify chat (autoSentMsg ⟨code⟩), Effect.notify chat noPeerMsg] ++
           (stopActiveSession env noPeerReason s).2,
         true)) ∧
    (noPeerHit line = false → successHit line = true →
      processLine env chat pid line s =
        ((stopActiveSession env linkedReason s).1,
         [Effect.stdinWrite pid ("/verify " ++ (⟨code⟩ : String) ++ "\n"),
          Effect.notify chat (autoSentMsg ⟨code⟩), Effect.notify chat linkedMsg] ++
           (stopActiveSession env linkedReason s).2,
         true)) := by
  constructor
  · intro hn
    simp [processLine, hv, hn, hu, he, hw]
  · intro hn hs
    simp [processLine, hv, hn, hs, hu, he, hw]

/-- Witness for the C5 amendment on concrete both-matching lines: one
matching verify plus NoPeerFound, one matching verify plus LinkSucceeded. -/
theorem tiebreak_both_reactions_witness :
    (processLine envS 1 10 "verify code: ABC no peer ids found for address 0x1" sOne =
      ((stopActiveSession envS noPeerReason sOne).1,
       [Effect.stdinWrite 10 "/verify ABC\n", Effect.notify 1 (autoSentMsg "ABC"),
        Effect.notify 1 noPeerMsg] ++ (stopActiveSession envS noPeerReason sOne).2,
       true)) ∧
    (processLine envS 1 10 "verify code: AB account successfully linked" sOne =
      ((stopActiveSession envS linkedReason sOne).1,
       [Effect.stdinWrite 10 "/verify AB\n", Effect.notify 1 (autoSentMsg "AB"),
        Effect.notify 1 linkedMsg] ++ (stopActiveSession envS linkedReason sOne).2,
       true)) :=
  ⟨(tiebreak_both_reactions envS 1 10 sOne
      "verify code: ABC no peer ids found for address 0x1" "ABC".data
      rfl rfl rfl rfl).1 rfl,
   (tiebreak_both_reactions envS 1 10 sOne
      "verify code: AB account successfully linked" "AB".data
      rfl rfl rfl rfl).2 rfl rfl⟩

/-- C7: the timeout checker fires exactly on an expired active session:
when a chat id and a last-active stamp `T` are present and the clock
strictly exceeds `T` plus the 10-minute threshold, one wake-up equals the
stop-and-advance path with the timed-out reason, after which the queue
head (if any) is the new active owner (given the spawn succeeds); and a
wake-up while idle (no chat id or no last-active stamp) does nothing. -/
theorem timeout_fires_only_when_expired (env : Env) (s : SupState) (c last : Nat) :
    (s.chatId = some c → s.lastActive = some last → last + SESSION_TIMEOUT < env.now →
      timeoutCheck env s = stopActiveSession env timeoutReason s ∧
      (∀ c2 e2 rest pid, s.queue = (c2, e2) :: rest → env.spawnResult = some pid →
        (timeoutCheck env s).1.chatId = some c2)) ∧
    (s.chatId = none ∨ s.lastActive = none → timeoutCheck env s = (s, [])) := by
  constructor
  · intro hc hl hexp
    have hcond : SESSION_TIMEOUT < env.now - last := by omega
    have heq : timeoutCheck env s = stopActiveSession env timeoutReason s := by
      simp [timeoutCheck, hc, hl, hcond]
    refine ⟨heq, ?_⟩
    intro c2 e2 rest pid hq hsp
    rw [heq]
    obtain ⟨cid, pf, la, q⟩ := s
    simp only at hq
    subst hq
    simp [stopActiveSession, startSession, hsp]
  · intro hidle
    rcases hidle with h | h <;>
      · obtain ⟨cid, pf, la, q⟩ := s
        simp only at h
        subst h
        simp [timeoutCheck]

/-- Witness for C7: at time 1000 with `last_active = 0` the checker stops
the session and promotes queued chat 2. -/
theorem timeout_fires_only_when_expired_witness :
    timeoutCheck envS sQ = stopActiveSession envS timeoutReason sQ ∧
    (timeoutCheck envS sQ).1.chatId = some 2 :=
  ⟨((timeout_fires_only_when_expired envS sQ 1 0).1 rfl rfl (by decide)).1,
   ((timeout_fires_only_when_expired envS sQ 1 0).1 rfl rfl (by decide)).2
     2 "0xb" [] 77 rfl rfl⟩

/-- Helper: the full effect list of the stop-and-advance path when a
process occupies the slot — the terminate call sequence comes first. -/
theorem stopActiveSession_effects (env : Env) (reason : String) (cid : Option Nat)
    (pid : Nat) (la : Option Nat) (q : List (Nat × String)) :
    (stopActiveSession env reason ⟨cid, some pid, la, q⟩).2 =
      terminateSeq env pid ++
        ((match cid with
          | some c0 => [Effect.notify c0 (stopNoticeMsg reason)]
          | none => []) ++
         (match q with
          | [] => []
          | (nc, ne) :: rest =>
            Effect.notify nc yourTurnMsg ::
              (startSession env nc ne ⟨none, none, none, rest⟩).2)) := by
  cases cid <;> cases q <;> simp [stopActiveSession]

/-- C4: every termination path funnels into `stop_active_session`, which
first issues the terminate call sequence to the occupying child (graceful
terminate, kill after the grace period when needed, then wait), clears the
whole active slot, and only then promotes the queue head by running
`start_session` on the already-idle state. The explicit owner stop, the
stale-monitor finaliser, and the NoPeerFound / LinkSucceeded reactions are
literally this one operation (the timeout path is settled with C7). -/
theorem stop_and_advance_cleanup (env : Env) (reason : String) (s : SupState) (pid : Nat)
    (h : s.procId = some pid) :
    (∃ rest, (stopActiveSession env reason s).2 = terminateSeq env pid ++ rest) ∧
    (s.queue = [] → (stopActiveSession env reason s).1 = initState) ∧
    (∀ c e rest, s.queue = (c, e) :: rest →
      (stopActiveSession env reason s).1 =
        (startSession env c e ⟨none, none, none, rest⟩).1) ∧
    (∀ c, s.chatId = some c → cmdStop env c s = stopActiveSession env userStopReason s) ∧
    (monitorFinalize env pid s = stopActiveSession env exitedReason s) ∧
    (∀ chat line, noPeerHit line = true →
      (processLine env chat pid line s).1 = (stopActiveSession env noPeerReason s).1 ∧
      (processLine env chat pid line s).2.2 = true) ∧
    (∀ chat line, noPeerHit line = false → successHit line = true →
      (processLine env chat pid line s).1 = (stopActiveSession env linkedReason s).1 ∧
      (processLine env chat pid line s).2.2 = true) := by
  obtain ⟨cid, pf, la, q⟩ := s
  simp only at h
  subst h
  refine ⟨?_, ?_, ?_, ?_, ?_, ?_, ?_⟩
  · exact ⟨_, stopActiveSession_effects env reason cid pid la q⟩
  · intro hq
    simp only at hq
    subst hq
    cases cid <;> simp [stopActiveSession, initState]
  · intro c e rest hq
    simp only at hq
    subst hq
    cases cid <;> simp [stopActiveSession]
  · intro c hc
    simp only at hc
    subst hc
    simp [cmdStop]
  · simp [monitorFinalize]
  · intro chat line hn
    constructor <;> simp [processLine, hn]
  · intro chat line hn hsucc
    constructor <;> simp [processLine, hn, hsucc]

/-- Witness for C4 on a concrete active state with a queued requester:
the terminate sequence leads, and the promotion equals a fresh
`start_session` on the cleared state. -/
theorem stop_and_advance_cleanup_witness :
    (stopActiveSession envS "r" sQ).1 =
      (startSession envS 2 "0xb" ⟨none, none, none, []⟩).1 :=
  ((stop_and_advance_cleanup envS "r" sQ 10 rfl).2.2.1) 2 "0xb" [] rfl

/-- C8: strict FIFO. While chat `d` holds the slot, requesters `a`, `b`,
`c` arriving in that order occupy queue positions 1, 2, 3; three runs of
the stop-and-advance path then promote exactly `a`, then `b`, then `c`
into the active slot, each exactly once, always removing the oldest entry
and never reordering. -/
theorem fifo_promotion (env : Env) (d pd ld a b c pid : Nat)
    (ea eb ec r1 r2 r3 : String) (hsp : env.spawnResult = some pid) :
    (startSession env c ec
        (startSession env b eb
          (startSession env a ea ⟨some d, some pd, some ld, []⟩).1).1).1 =
      ⟨some d, some pd, some ld, [(a, ea), (b, eb), (c, ec)]⟩ ∧
    (stopActiveSession env r1
        ⟨some d, some pd, some ld, [(a, ea), (b, eb), (c, ec)]⟩).1 =
      ⟨some a, some pid, some env.now, [(b, eb), (c, ec)]⟩ ∧
    (stopActiveSession env r2
        ⟨some a, some pid, some env.now, [(b, eb), (c, ec)]⟩).1 =
      ⟨some b, some pid, some env.now, [(c, ec)]⟩ ∧
    (stopActiveSession env r3
        ⟨some b, some pid, some env.now, [(c, ec)]⟩).1 =
      ⟨some c, some pid, some env.now, []⟩ := by
  refine ⟨?_, ?_, ?_, ?_⟩ <;> simp [startSession, stopActiveSession, hsp]

/-- Witness for C8: chats 1, 2, 3 queued behind chat 9 are promoted in
order 1, 2, 3. -/
theorem fifo_promotion_witness :
    (stopActiveSession envS "x"
        ⟨some 9, some 10, some 0, [(1, "0xa"), (2, "0xb"), (3, "0xc")]⟩).1 =
      ⟨some 1, some 77, some 1000, [(2, "0xb"), (3, "0xc")]⟩ :=
  (fifo_promotion envS 9 10 0 1 2 3 77 "0xa" "0xb" "0xc" "x" "y" "z" rfl).2.1

end GswarmMultibot
